import Mathlib

/-!
Verification of the Code-Review-Assistant backend core: the heuristic review
engine (`services/llm_review.py`) and the report formatter
(`services/report_formatter.py`), together with the data model from
`models/review_model.py`.  Python strings are modelled as Lean `String`
(a list of characters), Python `float` arithmetic over half/tenth-valued
quantities is modelled exactly over `ℚ`, and Python `int` as `ℤ`.
-/

namespace CodeReviewAssistant

/-! ### Python primitives

Models of the Python built-in string and numeric operations used by the
backend: `str.strip`, `str.lower`, `in` (substring test), `str.startswith`,
`str.split` on a single-character separator, `str.join`, `str.count`,
`round` (banker's rounding, as Python's `round`), and `int()` truncation
toward zero. -/

/-- Python `str.strip()`: remove whitespace from both ends. -/
def pyStrip (s : String) : String :=
  ⟨((s.data.dropWhile Char.isWhitespace).reverse.dropWhile Char.isWhitespace).reverse⟩

/-- Python `str.lower()` (ASCII case folding). -/
def pyLower (s : String) : String :=
  ⟨s.data.map Char.toLower⟩

/-- Python `len` on a string: number of characters. -/
def pyLen (s : String) : ℕ :=
  s.data.length

/-- Python `sub in s`: substring containment. -/
def pyContains (s sub : String) : Bool :=
  s.data.tails.any (fun t => sub.data.isPrefixOf t)

/-- Python `s.startswith(pre)`. -/
def pyStartsWith (s pre : String) : Bool :=
  pre.data.isPrefixOf s.data

/-- Split a character list on a separator character, keeping empty parts,
as Python `str.split(sep)` does for a one-character separator. -/
def splitCharList (sep : Char) : List Char → List (List Char)
  | [] => [[]]
  | c :: cs =>
    match splitCharList sep cs with
    | [] => [[c]]
    | p :: ps => if c = sep then [] :: p :: ps else (c :: p) :: ps

/-- Python `s.split(sep)` for a one-character separator. -/
def pySplit (sep : Char) (s : String) : List String :=
  (splitCharList sep s.data).map (fun l => ⟨l⟩)

/-- Python `content.split('\n')`. -/
def pySplitLines (content : String) : List String :=
  pySplit (Char.ofNat 10) content

/-- Python `sep.join(parts)`. -/
def pyJoin (sep : String) : List String → String
  | [] => ""
  | [x] => x
  | x :: y :: ys => x ++ sep ++ pyJoin sep (y :: ys)

/-- Python `s.count(sub)`: number of non-overlapping occurrences, scanning
left to right (returns 0 for an empty needle; the backend never counts an
empty needle). -/
def pyCount (s sub : String) : ℕ :=
  go sub.data s.data
where
  go (needle : List Char) (hay : List Char) : ℕ :=
    match needle, hay with
    | [], _ => 0
    | _, [] => 0
    | n :: ns, c :: rest =>
      if (n :: ns).isPrefixOf (c :: rest) then
        1 + go (n :: ns) ((c :: rest).drop (n :: ns).length)
      else
        go (n :: ns) rest
  termination_by hay.length
  decreasing_by
    · simp only [List.length_drop, List.length_cons]
      omega
    · simp only [List.length_cons]
      omega

/-- Python `round(q)`: round half to even (banker's rounding). -/
def pyRound (q : ℚ) : ℤ :=
  let f : ℤ := ⌊q⌋
  if q - f < 1/2 then f
  else if q - f > 1/2 then f + 1
  else if f % 2 = 0 then f else f + 1

/-- Python `int(q)`: truncation toward zero. -/
def pyTrunc (q : ℚ) : ℤ :=
  if 0 ≤ q then ⌊q⌋ else ⌈q⌉

/-- Python `round(q, 1)`: round to one decimal place. -/
def pyRound1 (q : ℚ) : ℚ :=
  (pyRound (q * 10) : ℚ) / 10

/-- Python `round(q, 2)`: round to two decimal places. -/
def pyRound2 (q : ℚ) : ℚ :=
  (pyRound (q * 100) : ℚ) / 100

/-! ### Data model (`models/review_model.py`) -/

/-- `ReviewSeverity`: severity levels for code review issues. -/
inductive ReviewSeverity where
  | low
  | medium
  | high
  | critical
deriving DecidableEq, BEq, Repr

/-- The string `value` of a `ReviewSeverity` member. -/
def ReviewSeverity.value : ReviewSeverity → String
  | .low => "low"
  | .medium => "medium"
  | .high => "high"
  | .critical => "critical"

/-- `CodeIssue`: individual code issue found during review. -/
structure CodeIssue where
  line_number : Option ℤ
  issue_type : String
  severity : ReviewSeverity
  description : String
  suggestion : Option String
deriving DecidableEq, BEq, Repr

/-- `CodeReview`: complete code review result. -/
structure CodeReview where
  readability : String
  modularity : String
  potential_bugs : String
  suggestions : List String
  issues : List CodeIssue
  overall_score : ℤ
  summary : String
deriving DecidableEq, Repr

/-! ### `LLMReviewService` (`services/llm_review.py`)

Only the deterministic heuristic (mock) path is modelled; the Gemini-backed
path depends on an external network service.  The artificial
`time.sleep(random.uniform(0.5, 2.0))` delay has no bearing on output
values and is omitted, as the spec allows. -/

namespace LLMReviewService

/-- The `supported_languages` extension table from `__init__`. -/
def supported_languages : List (String × String) :=
  [(".py", "Python"),
   (".js", "JavaScript"),
   (".java", "Java"),
   (".cpp", "C++"),
   (".c", "C"),
   (".ts", "TypeScript"),
   (".go", "Go"),
   (".rs", "Rust"),
   (".php", "PHP"),
   (".rb", "Ruby"),
   (".txt", "Text")]

/-- `detect_language`: `'.' + filename.split('.')[-1].lower()` looked up in
the extension table, defaulting to `"Unknown"`. -/
def detect_language (filename : String) : String :=
  let extension := "." ++ pyLower ⟨(splitCharList (Char.ofNat 46) filename.data).getLastD []⟩
  (List.lookup extension supported_languages).getD "Unknown"

/-- The three-double-quote docstring delimiter. -/
def tripleQuote : String := "\"\"\""

/-- The three-single-quote docstring delimiter. -/
def tripleApostrophe : String := ⟨[Char.ofNat 39, Char.ofNat 39, Char.ofNat 39]⟩

/-- The body of the `for i, line in enumerate(lines, 1)` loop of
`_generate_mock_issues`: all issues appended for the 1-based line `i` whose
raw text is `line`, with `lines` the full line list (used by the docstring
checks).  The checks run in the fixed source order; `line` is stripped
first and blank lines are skipped. -/
def line_checks (i : ℕ) (line : String) (lines : List String) : List CodeIssue :=
  let s := pyStrip line
  if s = "" then [] else
  (if pyLen s > 100 then
    [⟨some (i : ℤ), "style", .low,
      "Line " ++ toString i ++ " is too long (" ++ toString (pyLen s) ++ " characters)",
      some "Consider breaking this line into multiple lines"⟩] else [])
  ++ (if pyContains s "/" && pyContains s "n" && pyContains s "=" then
    [⟨some (i : ℤ), "bug", .critical,
      "Potential division by zero on line " ++ toString i,
      some "Add validation to ensure divisor is not zero before division"⟩] else [])
  ++ (if pyContains s "range(" && pyContains s "[" then
    [⟨some (i : ℤ), "bug", .high,
      "Potential array index out of bounds on line " ++ toString i,
      some "Verify array size matches range bounds"⟩] else [])
  ++ (if pyContains s "input(" && pyContains s "int(" then
    [⟨some (i : ℤ), "security", .medium,
      "Missing input validation on line " ++ toString i,
      some "Add try-catch block to handle invalid input"⟩] else [])
  ++ (if pyStartsWith s "global " then
    [⟨some (i : ℤ), "maintainability", .medium,
      "Use of global variables on line " ++ toString i,
      some "Consider refactoring to avoid global state"⟩] else [])
  ++ (if pyStartsWith s "print(" then
    [⟨some (i : ℤ), "style", .low,
      "Use of print statement on line " ++ toString i,
      some "Consider using proper logging instead of print statements"⟩] else [])
  ++ (if pyStartsWith s "def " ∧ i < lines.length - 1 then
      (let next_line := if i < lines.length then pyStrip (lines.getD i "") else ""
       if !pyStartsWith next_line tripleQuote && !pyStartsWith next_line tripleApostrophe then
        [⟨some (i : ℤ), "documentation", .medium,
          "Function on line " ++ toString i ++ " lacks documentation",
          some "Add a docstring to describe the function's purpose and parameters"⟩]
       else [])
     else [])
  ++ (if pyStartsWith s "def " &&
        !((lines.drop (i - 3)).take (i - (i - 3))).any
          (fun prev_line => pyContains prev_line tripleQuote || pyContains prev_line tripleApostrophe) then
    [⟨some (i : ℤ), "documentation", .medium,
      "Function at line " ++ toString i ++ " lacks documentation",
      some "Add a docstring to describe the function's purpose"⟩] else [])
  ++ (if pyContains s "http://" || pyContains s "https://" then
    [⟨some (i : ℤ), "maintainability", .medium,
      "Hardcoded URL found at line " ++ toString i,
      some "Consider using environment variables or configuration files"⟩] else [])

/-- The detection sequence of `_generate_mock_issues` before the 10-item
cap: lines scanned top-to-bottom from 1-based index `i`, each contributing
its `line_checks` issues in pattern-catalogue order. -/
def detect_go (lines : List String) : ℕ → List String → List CodeIssue
  | _, [] => []
  | i, l :: rest => line_checks i l lines ++ detect_go lines (i + 1) rest

/-- All issues detected for `content`, in detection order, before the cap. -/
def detect_all (content : String) : List CodeIssue :=
  let lines := pySplitLines content
  detect_go lines 1 lines

/-- The accumulator loop of `_generate_mock_issues`: `issues = []` followed
by `issues.append(...)` for each line. -/
def mock_issues_loop (lines : List String) : List CodeIssue → ℕ → List String → List CodeIssue
  | acc, _, [] => acc
  | acc, i, l :: rest => mock_issues_loop lines (acc ++ line_checks i l lines) (i + 1) rest

/-- `_generate_mock_issues`: line scan producing issues, truncated to the
first 10 (`issues[:10]`). -/
def generate_mock_issues (_content : String) (lines : List String) : List CodeIssue :=
  (mock_issues_loop lines [] 1 lines).take 10

/-- Python `str(x)` for an optional integer field (`None` prints as
`"None"`). -/
def optIntStr : Option ℤ → String
  | some z => toString z
  | none => "None"

/-- `_get_readability_feedback`. -/
def get_readability_feedback (content : String) (line_count : ℕ) : String :=
  let part1 :=
    if line_count < 50 then "Code is concise and well-structured."
    else if line_count < 150 then "Code is moderately sized with decent organization."
    else "Code is quite lengthy and could benefit from better modularization."
  let part2 :=
    if ["temp", "tmp", "var", "data"].any (fun word => pyContains (pyLower content) word) then
      "Some variable names could be more descriptive."
    else "Variable naming is generally clear and meaningful."
  let comment_lines := ((pySplitLines content).filter (fun l => pyStartsWith (pyStrip l) "#")).length
  let part3 :=
    if comment_lines = 0 then "No comments found - consider adding inline documentation."
    else if (comment_lines : ℚ) < (line_count : ℚ) * (1/10) then
      "Minimal comments present - more documentation would improve readability."
    else "Good use of comments for code documentation."
  let part4 :=
    if pyContains content "    " then "Proper indentation and whitespace usage."
    else "Consider improving code formatting and indentation."
  pyJoin " " [part1, part2, part3, part4]

/-- `_get_modularity_feedback`. -/
def get_modularity_feedback (content : String) (line_count : ℕ) : String :=
  let function_count := pyCount content "def " + pyCount content "function " + pyCount content "public "
  if function_count = 0 then
    "No functions detected. Consider breaking code into reusable functions for better modularity."
  else if (line_count : ℚ) / (max function_count 1 : ℕ) > 30 then
    "Functions are quite long. Consider splitting large functions into smaller, more focused ones."
  else
    "Good modular structure with appropriately sized functions."

/-- `_get_bugs_feedback`. -/
def get_bugs_feedback (content : String) (issues : List CodeIssue) : String :=
  let critical_issues := issues.filter (fun i => i.severity == ReviewSeverity.critical)
  let high_issues := issues.filter (fun i => i.severity == ReviewSeverity.high)
  let medium_issues := issues.filter (fun i => i.severity == ReviewSeverity.medium)
  let parts1 :=
    if critical_issues.isEmpty then [] else
      ("CRITICAL: Found " ++ toString critical_issues.length ++
        " critical issues that will cause runtime errors or crashes.") ::
      (critical_issues.take 2).map
        (fun issue => "- Line " ++ optIntStr issue.line_number ++ ": " ++ issue.description)
  let parts2 := parts1 ++
    (if high_issues.isEmpty then [] else
      ("HIGH PRIORITY: " ++ toString high_issues.length ++
        " high-priority issues that could cause problems.") ::
      (high_issues.take 2).map
        (fun issue => "- Line " ++ optIntStr issue.line_number ++ ": " ++ issue.description))
  let parts3 := parts2 ++
    (if medium_issues.isEmpty then [] else
      ["MEDIUM PRIORITY: " ++ toString medium_issues.length ++ " medium-priority issues for code quality."])
  let parts4 := parts3 ++
    (if pyContains content "/" && pyContains content "n" then
      ["Potential division by zero detected - add validation."] else [])
  let parts5 := parts4 ++
    (if pyContains content "input(" && pyContains content "int(" then
      ["Missing input validation - add try-catch blocks."] else [])
  let parts6 := parts5 ++
    (if pyContains content "range(" && pyContains content "[" then
      ["Potential array bounds issues - verify index ranges."] else [])
  let parts7 :=
    if parts6.isEmpty then
      ["No obvious bugs detected, but consider adding comprehensive input validation and error handling."]
    else parts6
  pyJoin " " parts7

/-- `_get_suggestions`: conditionally built suggestion list, with two
unconditional entries, capped at 6. -/
def get_suggestions (content : String) (line_count : ℕ) (language : String) : List String :=
  let suggestions :=
    (if line_count > 100 then
      ["Consider breaking this file into smaller, focused modules for better maintainability"] else [])
    ++ (if !pyContains content "TODO" && !pyContains content "FIXME" then
      ["Add TODO comments for future improvements and known limitations"] else [])
    ++ (if language = "Python" then
        (if pyContains content "import" then
          ["Organize imports according to PEP 8: standard library, third-party, local imports"] else [])
        ++ (if pyContains content "def " && !pyContains content "type:" then
          ["Add type hints to function parameters and return values for better code documentation"] else [])
        ++ (if pyContains content "global " then
          ["Refactor to avoid global variables - use dependency injection or return values instead"] else [])
      else [])
    ++ (if pyContains content "input(" && !pyContains content "try:" then
      ["Add comprehensive input validation with try-catch blocks to handle invalid user input"] else [])
    ++ (if pyContains content "/" && !pyContains content "if" then
      ["Add validation to prevent division by zero and other mathematical errors"] else [])
    ++ (if pyContains content "print(" || pyContains content "console.log" then
      ["Replace print statements with proper logging framework for production code"] else [])
    ++ ["Add comprehensive unit tests to cover edge cases and error conditions",
        "Implement proper error handling and graceful failure modes"]
    ++ (if pyContains content "for " && pyContains content "range(" then
      ["Consider using list comprehensions or generator expressions for better performance"] else [])
  suggestions.take 6

/-- `_generate_summary` of the engine (note: called with the raw, un-clamped
score). -/
def generate_summary (score : ℚ) (issue_count : ℕ) (language : String)
    (critical_issues high_issues : ℕ) : String :=
  let part1 :=
    if score ≥ 8 then "Excellent " ++ language ++ " code with high quality standards."
    else if score ≥ 6 then "Good " ++ language ++ " code with room for improvement."
    else if score ≥ 4 then "Fair " ++ language ++ " code that needs attention to several issues."
    else "Poor " ++ language ++ " code requiring significant refactoring."
  let part2 :=
    if issue_count = 0 then "No issues detected."
    else
      let issue_breakdown :=
        (if critical_issues > 0 then [toString critical_issues ++ " critical"] else [])
        ++ (if high_issues > 0 then [toString high_issues ++ " high-priority"] else [])
        ++ (if issue_count - critical_issues - high_issues > 0 then
            [toString (issue_count - critical_issues - high_issues) ++ " medium/low"] else [])
      "Found " ++ toString issue_count ++ " total issues: " ++ pyJoin ", " issue_breakdown ++ "."
  let part3 :=
    if critical_issues > 0 then "URGENT: Address critical issues immediately to prevent runtime errors."
    else if high_issues > 0 then "PRIORITY: Focus on high-priority issues for better code reliability."
    else if issue_count > 0 then "Consider addressing medium-priority issues for improved code quality."
    else "Code is in good shape - consider adding tests and documentation."
  pyJoin " " [part1, part2, part3]

/-- The raw (pre-`int()`, pre-clamp) score computed by
`_generate_mock_review`: base 8 with sequential deductions. -/
def mock_raw_score (content : String) (line_count : ℕ) (issues : List CodeIssue) : ℚ :=
  let critical_issues := (issues.filter (fun i => i.severity == ReviewSeverity.critical)).length
  let high_issues := (issues.filter (fun i => i.severity == ReviewSeverity.high)).length
  let medium_issues := (issues.filter (fun i => i.severity == ReviewSeverity.medium)).length
  let score : ℚ := 8 - (critical_issues : ℚ) * 3 - (high_issues : ℚ) * 2 - (medium_issues : ℚ) * 1
  let score := if line_count > 200 then score - 1 else score
  let score := if pyContains content "global " then score - 1 else score
  let score := if pyContains content "print(" then score - 1/2 else score
  score

/-- `_generate_mock_review`. -/
def generate_mock_review (content : String) (line_count : ℕ) (language : String)
    (issues : List CodeIssue) : CodeReview :=
  let critical_issues := (issues.filter (fun i => i.severity == ReviewSeverity.critical)).length
  let high_issues := (issues.filter (fun i => i.severity == ReviewSeverity.high)).length
  let score := mock_raw_score content line_count issues
  { readability := get_readability_feedback content line_count
    modularity := get_modularity_feedback content line_count
    potential_bugs := get_bugs_feedback content issues
    suggestions := get_suggestions content line_count language
    issues := issues
    overall_score := max 1 (min 10 (pyTrunc score))
    summary := generate_summary score issues.length language critical_issues high_issues }

/-- `_analyze_with_mock` (the simulated delay is omitted; it has no bearing
on the result). -/
def analyze_with_mock (content : String) (_filename language : String) : CodeReview :=
  let lines := pySplitLines content
  let line_count := lines.length
  let issues := generate_mock_issues content lines
  generate_mock_review content line_count language issues

/-- `analyze_code` in the heuristic configuration (`use_real_llm = False`):
detect the language, then run the mock analysis. -/
def analyze_heuristic (content filename : String) : CodeReview :=
  let language := detect_language filename
  analyze_with_mock content filename language

/-! #### `_parse_llm_response` (external review parsing)

Only the severity-driven filtering of `line_wise_issues` is relevant to the
claims.  An entry is modelled with its already-extracted fields; a missing
`severity` key behaves as the default string `"medium"`. -/

/-- One entry of the externally supplied `line_wise_issues` array. -/
structure RawIssue where
  line : Option ℤ
  issue_type : String
  severity : String
  issue : String
  fix_suggestion : Option String
deriving DecidableEq, Repr

/-- `ReviewSeverity(s)`: the enum constructor, `none` on a `ValueError`. -/
def parse_severity (s : String) : Option ReviewSeverity :=
  if s = "low" then some .low
  else if s = "medium" then some .medium
  else if s = "high" then some .high
  else if s = "critical" then some .critical
  else none

/-- The `CodeIssue` built from a raw entry with severity `sev`. -/
def issue_of_raw (e : RawIssue) (sev : ReviewSeverity) : CodeIssue :=
  ⟨e.line, e.issue_type, sev, e.issue, e.fix_suggestion⟩

/-- The `line_wise_issues` parsing loop of `_parse_llm_response`: entries
whose (lower-cased) severity is not a `ReviewSeverity` member raise
`ValueError`, are caught, and are skipped. -/
def parse_line_wise_issues : List RawIssue → List CodeIssue
  | [] => []
  | e :: rest =>
    match parse_severity (pyLower e.severity) with
    | none => parse_line_wise_issues rest
    | some sev => issue_of_raw e sev :: parse_line_wise_issues rest

end LLMReviewService

/-! ### `ReportFormatter` (`services/report_formatter.py`) -/

namespace ReportFormatter

/-- The `severity_weights` table from `__init__` (`.get(sev, 1)` never
falls back to the default: all four members are keys). -/
def severity_weight : ReviewSeverity → ℚ
  | .critical => 4
  | .high => 3
  | .medium => 2
  | .low => 1

/-- `_calculate_overall_score`: base 10, per-issue weighted deductions,
suggestion-count deduction, Python `round`, clamp to `[1, 10]`. -/
def calculate_overall_score (review_data : CodeReview) : ℤ :=
  let base_score : ℚ := review_data.issues.foldl
    (fun base_score issue => base_score - severity_weight issue.severity * (1/2)) 10
  let base_score :=
    if review_data.suggestions.length > 5 then base_score - 1
    else if review_data.suggestions.length > 3 then base_score - 1/2
    else base_score
  max 1 (min 10 (pyRound base_score))

/-- `_generate_summary` of the formatter. -/
def generate_summary (review_data : CodeReview) (overall_score : ℤ) : String :=
  let total_issues := review_data.issues.length
  let critical_issues := (review_data.issues.filter (fun i => i.severity == ReviewSeverity.critical)).length
  let high_issues := (review_data.issues.filter (fun i => i.severity == ReviewSeverity.high)).length
  let quality_level :=
    if overall_score ≥ 8 then "excellent"
    else if overall_score ≥ 6 then "good"
    else if overall_score ≥ 4 then "fair"
    else "needs improvement"
  let summary_parts :=
    ["Code quality is " ++ quality_level ++ " with an overall score of " ++
      toString overall_score ++ "/10."]
  let summary_parts := summary_parts ++
    (if total_issues = 0 then ["No issues were identified."]
     else
      let issue_desc :=
        (if critical_issues > 0 then [toString critical_issues ++ " critical"] else [])
        ++ (if high_issues > 0 then [toString high_issues ++ " high"] else [])
        ++ (if total_issues - critical_issues - high_issues > 0 then
            [toString (total_issues - critical_issues - high_issues) ++ " minor"] else [])
      ["Found " ++ toString total_issues ++ " issues: " ++ pyJoin ", " issue_desc ++ "."])
  let summary_parts :=
    if review_data.suggestions.isEmpty then summary_parts
    else summary_parts ++
      ["Provided " ++ toString review_data.suggestions.length ++ " improvement suggestions."]
  pyJoin " " summary_parts

/-- The reduced issue record `{line_number, type, description, suggestion}`
appended to a severity bucket by `_group_issues_by_severity`. -/
structure IssueDict where
  line_number : Option ℤ
  issue_type : String
  description : String
  suggestion : Option String
deriving DecidableEq, Repr

/-- Reduction of a `CodeIssue` to its grouped record. -/
def issue_dict (issue : CodeIssue) : IssueDict :=
  ⟨issue.line_number, issue.issue_type, issue.description, issue.suggestion⟩

/-- The four severity buckets built by `_group_issues_by_severity`. -/
structure Grouped where
  critical : List IssueDict
  high : List IssueDict
  medium : List IssueDict
  low : List IssueDict
deriving DecidableEq, Repr

/-- The loop body of `_group_issues_by_severity`:
`grouped[issue.severity.value].append(issue_dict)`. -/
def group_step (grouped : Grouped) (issue : CodeIssue) : Grouped :=
  match issue.severity with
  | .critical => { grouped with critical := grouped.critical ++ [issue_dict issue] }
  | .high => { grouped with high := grouped.high ++ [issue_dict issue] }
  | .medium => { grouped with medium := grouped.medium ++ [issue_dict issue] }
  | .low => { grouped with low := grouped.low ++ [issue_dict issue] }

/-- `_group_issues_by_severity`: append each issue's record to the bucket
named by its severity value, in order. -/
def group_issues_by_severity (issues : List CodeIssue) : Grouped :=
  issues.foldl group_step ⟨[], [], [], []⟩

/-- The insertion-ordered type-count update
`type_counts[t] = type_counts.get(t, 0) + 1`. -/
def bump_type (counts : List (String × ℕ)) (t : String) : List (String × ℕ) :=
  match counts with
  | [] => [(t, 1)]
  | (k, v) :: rest => if k = t then (k, v + 1) :: rest else (k, v) :: bump_type rest t

/-- `_count_issues_by_type`: insertion-ordered mapping issue-type → count. -/
def count_issues_by_type (issues : List CodeIssue) : List (String × ℕ) :=
  issues.foldl (fun type_counts issue => bump_type type_counts issue.issue_type) []

/-- The complexity-score formula of `_calculate_quality_metrics`, as a
function of the issue and suggestion counts. -/
def complexity_score (total_issues suggestions_count : ℕ) : ℚ :=
  pyRound1 (min 10 (max 1 (10 - (total_issues : ℚ) * (1/2) - (suggestions_count : ℚ) * (1/5))))

/-- The maintainability-score formula of `_calculate_quality_metrics`, as a
function of the issue and suggestion counts. -/
def maintainability_score (total_issues suggestions_count : ℕ) : ℚ :=
  pyRound1 (min 10 (max 1 (10 - (total_issues : ℚ) * (3/10) - (suggestions_count : ℚ) * (1/10))))

/-- The quality-metrics record of `_calculate_quality_metrics`. -/
structure QualityMetrics where
  complexity_score : ℚ
  maintainability_score : ℚ
  suggestions_count : ℕ
  issues_per_suggestion : ℚ
deriving DecidableEq, Repr

/-- `_calculate_quality_metrics`. -/
def calculate_quality_metrics (review_data : CodeReview) : QualityMetrics :=
  let total_issues := review_data.issues.length
  let suggestions_count := review_data.suggestions.length
  { complexity_score := complexity_score total_issues suggestions_count
    maintainability_score := maintainability_score total_issues suggestions_count
    suggestions_count := suggestions_count
    issues_per_suggestion := pyRound2 ((total_issues : ℚ) / (max 1 suggestions_count : ℕ)) }

/-- The dictionary returned by `format_review`. -/
structure FormattedReport where
  filename : String
  overall_score : ℤ
  summary : String
  readability : String
  modularity : String
  potential_bugs : String
  suggestions : List String
  issues_by_severity : Grouped
  issues_by_type : List (String × ℕ)
  quality_metrics : QualityMetrics
  total_issues : ℕ
  critical_issues : ℕ
  high_issues : ℕ
  medium_issues : ℕ
  low_issues : ℕ
deriving DecidableEq, Repr

/-- `format_review`: format and enhance the raw review data with computed
fields. -/
def format_review (review_data : CodeReview) (filename : String) : FormattedReport :=
  let overall_score := calculate_overall_score review_data
  { filename := filename
    overall_score := overall_score
    summary := generate_summary review_data overall_score
    readability := review_data.readability
    modularity := review_data.modularity
    potential_bugs := review_data.potential_bugs
    suggestions := review_data.suggestions
    issues_by_severity := group_issues_by_severity review_data.issues
    issues_by_type := count_issues_by_type review_data.issues
    quality_metrics := calculate_quality_metrics review_data
    total_issues := review_data.issues.length
    critical_issues := (review_data.issues.filter (fun i => i.severity == ReviewSeverity.critical)).length
    high_issues := (review_data.issues.filter (fun i => i.severity == ReviewSeverity.high)).length
    medium_issues := (review_data.issues.filter (fun i => i.severity == ReviewSeverity.medium)).length
    low_issues := (review_data.issues.filter (fun i => i.severity == ReviewSeverity.low)).length }

end ReportFormatter

/-! ### Supporting lemmas -/

theorem pyRound_intCast (z : ℤ) : pyRound (z : ℚ) = z := by
  unfold pyRound
  simp [Int.floor_intCast]

theorem pyTrunc_intCast (z : ℤ) : pyTrunc (z : ℚ) = z := by
  unfold pyTrunc
  split_ifs <;> simp [Int.floor_intCast, Int.ceil_intCast]

theorem pyTrunc_near_int (z : ℤ) : |(pyTrunc (z : ℚ) : ℚ) - (z : ℚ)| ≤ 1/2 := by
  rw [pyTrunc_intCast, sub_self, abs_zero]
  norm_num

theorem pyTrunc_near_half (z : ℤ) :
    |(pyTrunc ((z : ℚ) - 1/2) : ℚ) - ((z : ℚ) - 1/2)| ≤ 1/2 := by
  by_cases hz : 1 ≤ z
  · have hv : (0 : ℚ) ≤ (z : ℚ) - 1/2 := by
      have : (1 : ℚ) ≤ (z : ℚ) := by exact_mod_cast hz
      linarith
    have hshape : (z : ℚ) - 1/2 = 1/2 + ((z - 1 : ℤ) : ℚ) := by push_cast; ring
    rw [pyTrunc, if_pos hv, hshape, Int.floor_add_int]
    have hhalf : ⌊(1 : ℚ)/2⌋ = 0 := by norm_num
    rw [hhalf]
    rw [show ((0 + (z - 1) : ℤ) : ℚ) - (1/2 + ((z - 1 : ℤ) : ℚ)) = -(1/2) by push_cast; ring]
    rw [abs_neg, abs_of_nonneg (by norm_num)]
  · have hz2 : z ≤ 0 := by omega
    have hv : ¬ (0 : ℚ) ≤ (z : ℚ) - 1/2 := by
      have : (z : ℚ) ≤ 0 := by exact_mod_cast hz2
      linarith
    have hshape : (z : ℚ) - 1/2 = -((1 : ℚ)/2) + (z : ℚ) := by ring
    rw [pyTrunc, if_neg hv, hshape, Int.ceil_add_int]
    have hhalf : ⌈-((1 : ℚ)/2)⌉ = 0 := by norm_num
    rw [hhalf]
    rw [show ((0 + z : ℤ) : ℚ) - (-((1 : ℚ)/2) + (z : ℚ)) = 1/2 by push_cast; ring]
    rw [abs_of_nonneg (by norm_num)]

theorem foldl_sub_map {α : Type} (f : α → ℚ) :
    ∀ (l : List α) (b : ℚ), l.foldl (fun acc a => acc - f a) b = b - (l.map f).sum := by
  intro l
  induction l with
  | nil => intro b; simp
  | cons x xs ih => intro b; simp [ih]; ring

/-! ### Claim C1: the formatter's recomputed overall score -/

/-- The per-issue deduction table as the spec states it: 0.5 times the
severity weight, i.e. critical 2.0, high 1.5, medium 1.0, low 0.5. -/
def formatter_spec_deduction : ReviewSeverity → ℚ
  | .critical => 2
  | .high => 3/2
  | .medium => 1
  | .low => 1/2

/-- C1: for every review and filename, the formatter's `overall_score`
equals 10 minus the per-issue deductions (critical 2.0, high 1.5,
medium 1.0, low 0.5) minus the suggestion-count deduction (1.0 if more
than 5 suggestions, else 0.5 if more than 3), rounded to the nearest
integer (Python `round`, ties to even) and clamped to [1, 10]; and the
engine's own `overall_score` field is ignored by the formatter. -/
theorem formatter_overall_score_c1 (review : CodeReview) (filename : String) :
    (ReportFormatter.format_review review filename).overall_score =
      max 1 (min 10 (pyRound (10 -
        (review.issues.map (fun i => formatter_spec_deduction i.severity)).sum -
        (if review.suggestions.length > 5 then 1
         else if review.suggestions.length > 3 then 1/2 else 0)))) ∧
    ∀ s : ℤ,
      ReportFormatter.format_review { review with overall_score := s } filename =
        ReportFormatter.format_review review filename := by
  constructor
  · have hded : (fun (i : CodeIssue) => ReportFormatter.severity_weight i.severity * (1/2 : ℚ)) =
        (fun i => formatter_spec_deduction i.severity) := by
      funext i
      cases i.severity <;> norm_num [ReportFormatter.severity_weight, formatter_spec_deduction]
    show ReportFormatter.calculate_overall_score review = _
    unfold ReportFormatter.calculate_overall_score
    rw [foldl_sub_map (fun i => ReportFormatter.severity_weight i.severity * (1/2 : ℚ)) review.issues 10]
    rw [hded]
    split_ifs <;> ring_nf
  · intro s
    rfl

/-! ### Claim C2: the heuristic engine's overall score -/

/-- The raw engine score as the spec states it: base 8, minus 3 per
critical issue, 2 per high issue, 1 per medium issue, minus 1 if the line
count exceeds 200, minus 1 if `"global "` occurs in the content, minus 0.5
if `"print("` occurs in the content. -/
def engine_spec_raw (content : String) : ℚ :=
  let issues := LLMReviewService.generate_mock_issues content (pySplitLines content)
  8 - 3 * ((issues.filter (fun i => i.severity == ReviewSeverity.critical)).length : ℚ)
    - 2 * ((issues.filter (fun i => i.severity == ReviewSeverity.high)).length : ℚ)
    - ((issues.filter (fun i => i.severity == ReviewSeverity.medium)).length : ℚ)
    - (if (pySplitLines content).length > 200 then 1 else 0)
    - (if pyContains content "global " then 1 else 0)
    - (if pyContains content "print(" then 1/2 else 0)

/-- C2: the heuristic engine's `overall_score` is the spec's raw score
(base 8 with the severity, length, global and print deductions) taken to a
nearest integer and clamped to [1, 10].  The code uses Python `int()`
(truncation toward zero); the second conjunct shows the truncated value is
always within 1/2 of the raw score, i.e. it is a nearest integer, because
the raw score is always an integer or an integer minus one half. -/
theorem engine_overall_score_c2 (content filename : String) :
    (LLMReviewService.analyze_heuristic content filename).overall_score =
      max 1 (min 10 (pyTrunc (engine_spec_raw content))) ∧
    |(pyTrunc (engine_spec_raw content) : ℚ) - engine_spec_raw content| ≤ 1/2 := by
  have hraw : LLMReviewService.mock_raw_score content (pySplitLines content).length
      (LLMReviewService.generate_mock_issues content (pySplitLines content)) =
      engine_spec_raw content := by
    simp only [LLMReviewService.mock_raw_score, engine_spec_raw]
    split_ifs <;> ring
  constructor
  · show max 1 (min 10 (pyTrunc (LLMReviewService.mock_raw_score content
      (pySplitLines content).length
      (LLMReviewService.generate_mock_issues content (pySplitLines content))))) = _
    rw [hraw]
  · have hshape : engine_spec_raw content =
        ((8 - 3 * ((LLMReviewService.generate_mock_issues content (pySplitLines content)).filter
            (fun i => i.severity == ReviewSeverity.critical)).length
          - 2 * ((LLMReviewService.generate_mock_issues content (pySplitLines content)).filter
            (fun i => i.severity == ReviewSeverity.high)).length
          - ((LLMReviewService.generate_mock_issues content (pySplitLines content)).filter
            (fun i => i.severity == ReviewSeverity.medium)).length
          - (if (pySplitLines content).length > 200 then 1 else 0)
          - (if pyContains content "global " then 1 else 0) : ℤ) : ℚ)
        - (if pyContains content "print(" then (1 : ℚ)/2 else 0) := by
      simp only [engine_spec_raw]
      push_cast
      split_ifs <;> ring
    rw [hshape]
    cases hp : pyContains content "print(" with
    | false =>
      simp only [hp, Bool.false_eq_true, if_false, sub_zero]
      exact pyTrunc_near_int _
    | true =>
      simp only [hp, if_true]
      exact pyTrunc_near_half _

/-! ### Claim C3: issue cap and detection order -/

theorem mock_issues_loop_eq (ctx : List String) :
    ∀ (rest : List String) (acc : List CodeIssue) (i : ℕ),
      LLMReviewService.mock_issues_loop ctx acc i rest =
        acc ++ LLMReviewService.detect_go ctx i rest := by
  intro rest
  induction rest with
  | nil =>
    intro acc i
    simp [LLMReviewService.mock_issues_loop, LLMReviewService.detect_go]
  | cons l rest ih =>
    intro acc i
    simp [LLMReviewService.mock_issues_loop, LLMReviewService.detect_go, ih]

/-- C3: the heuristic engine's issue list contains at most 10 issues and is
exactly the first 10 entries of the detection sequence `detect_all`: lines
scanned top-to-bottom by 1-based index, each line contributing its issues
in the fixed pattern-catalogue order of `line_checks` (long line, division
by zero, array bounds, input validation, global, print, the two docstring
checks, hardcoded URL). -/
theorem mock_issues_cap_and_order_c3 (content : String) :
    (LLMReviewService.generate_mock_issues content (pySplitLines content)).length ≤ 10 ∧
    LLMReviewService.generate_mock_issues content (pySplitLines content) =
      (LLMReviewService.detect_all content).take 10 := by
  constructor
  · simp only [LLMReviewService.generate_mock_issues, List.length_take]
    omega
  · simp only [LLMReviewService.generate_mock_issues, LLMReviewService.detect_all]
    rw [mock_issues_loop_eq]
    simp

/-! ### Claim C4: `detect_language` totality and the Unknown default -/

theorem splitCharList_ne_nil (sep : Char) : ∀ l : List Char, splitCharList sep l ≠ [] := by
  intro l
  induction l with
  | nil => simp [splitCharList]
  | cons c cs ih =>
    cases hr : splitCharList sep cs with
    | nil => exact absurd hr ih
    | cons p ps =>
      simp only [splitCharList, hr]
      split <;> simp

theorem splitCharList_of_not_mem (sep : Char) :
    ∀ l : List Char, sep ∉ l → splitCharList sep l = [l] := by
  intro l
  induction l with
  | nil => intro _; rfl
  | cons c cs ih =>
    intro h
    have hc : ¬ c = sep := fun hc => h (hc ▸ List.mem_cons_self c cs)
    have hcs : sep ∉ cs := fun hm => h (List.mem_cons_of_mem c hm)
    simp only [splitCharList, ih hcs]
    simp [hc]

theorem two_le_splitCharList_of_mem (sep : Char) :
    ∀ l : List Char, sep ∈ l → 2 ≤ (splitCharList sep l).length := by
  intro l
  induction l with
  | nil => intro h; cases h
  | cons c cs ih =>
    intro h
    cases hr : splitCharList sep cs with
    | nil => exact absurd hr (splitCharList_ne_nil sep cs)
    | cons p ps =>
      by_cases hc : c = sep
      · simp [splitCharList, hr, hc]
      · have hcs : sep ∈ cs := by
          rcases List.mem_cons.mp h with h1 | h2
          · exact absurd h1.symm hc
          · exact h2
        have := ih hcs
        rw [hr] at this
        simp only [splitCharList, hr]
        simp [hc]
        simpa using this

theorem getLastD_cons_ne_nil {α : Type} (a : α) (d : α) (l : List α) (h : l ≠ []) :
    (a :: l).getLastD d = l.getLastD d := by
  cases l with
  | nil => exact absurd rfl h
  | cons b t => simp [List.getLastD_cons]

theorem splitCharList_getLastD_append_sep (sep : Char) (suf : List Char) :
    ∀ pre : List Char,
      (splitCharList sep (pre ++ sep :: suf)).getLastD [] =
        (splitCharList sep suf).getLastD [] := by
  intro pre
  induction pre with
  | nil =>
    cases hr : splitCharList sep suf with
    | nil => exact absurd hr (splitCharList_ne_nil sep suf)
    | cons p ps =>
      simp only [List.nil_append, splitCharList, hr, if_pos rfl]
      exact getLastD_cons_ne_nil [] [] (p :: ps) (by simp)
  | cons c pre ih =>
    cases hr : splitCharList sep (pre ++ sep :: suf) with
    | nil => exact absurd hr (splitCharList_ne_nil sep _)
    | cons p ps =>
      have hps : ps ≠ [] := by
        have h2 := two_le_splitCharList_of_mem sep (pre ++ sep :: suf)
          (by simp)
        rw [hr] at h2
        simp at h2
        intro hnil
        rw [hnil] at h2
        simp at h2
      by_cases hc : c = sep
      · rw [show (c :: pre) ++ sep :: suf = c :: (pre ++ sep :: suf) from rfl]
        simp only [splitCharList, hr, if_pos hc]
        rw [getLastD_cons_ne_nil [] [] (p :: ps) (by simp)]
        rw [← hr, ih]
      · rw [show (c :: pre) ++ sep :: suf = c :: (pre ++ sep :: suf) from rfl]
        simp only [splitCharList, hr, if_neg hc]
        rw [getLastD_cons_ne_nil (c :: p) [] ps hps]
        rw [← getLastD_cons_ne_nil p [] ps hps, ← hr, ih]

theorem lookup_map_snd_mem {α β : Type} [BEq α] (a : α) (b : β) :
    ∀ l : List (α × β), List.lookup a l = some b → b ∈ l.map Prod.snd := by
  intro l
  induction l with
  | nil => intro h; simp [List.lookup] at h
  | cons kv t ih =>
    intro h
    obtain ⟨k, w⟩ := kv
    cases hk : a == k with
    | true =>
      simp only [List.lookup, hk] at h
      simp at h
      simp [← h]
    | false =>
      simp only [List.lookup, hk] at h
      simp [ih h]

/-- C4 counterexample: the filename `"py"` contains no dot, yet
`detect_language` returns `"Python"`, not `"Unknown"`: the pseudo-extension
built from a dotless filename is the whole lower-cased name prefixed with a
dot, which can match a table entry. -/
theorem detect_language_c4_counterexample :
    Char.ofNat 46 ∉ "py".data ∧
    LLMReviewService.detect_language "py" = "Python" ∧
    LLMReviewService.detect_language "py" ≠ "Unknown" := by
  refine ⟨by decide, by decide, by decide⟩

/-- C4 amended: `detect_language` is total and returns either `"Unknown"`
or one of the 11 table labels; for a filename of the form
`pre ++ "." ++ suf` with no dot in `suf` (so `suf` is the text after the
final dot) the result is the table entry for `"." ++ lower(suf)`,
defaulting to `"Unknown"`; and a filename containing no dot is treated as
though the entire name were the extension text, so it yields the table
entry for `"." ++ lower(filename)` — `"Unknown"` for most names, but a
table label for names like `"py"`. -/
theorem detect_language_amended_c4 (fn : String) :
    (LLMReviewService.detect_language fn = "Unknown" ∨
      LLMReviewService.detect_language fn ∈
        ["Python", "JavaScript", "Java", "C++", "C", "TypeScript", "Go", "Rust", "PHP", "Ruby", "Text"]) ∧
    (Char.ofNat 46 ∉ fn.data →
      LLMReviewService.detect_language fn =
        (List.lookup ("." ++ pyLower fn) LLMReviewService.supported_languages).getD "Unknown") ∧
    (∀ pre suf : List Char, Char.ofNat 46 ∉ suf → fn.data = pre ++ Char.ofNat 46 :: suf →
      LLMReviewService.detect_language fn =
        (List.lookup ("." ++ pyLower ⟨suf⟩) LLMReviewService.supported_languages).getD "Unknown") := by
  refine ⟨?_, ?_, ?_⟩
  · unfold LLMReviewService.detect_language
    set e := "." ++ pyLower ⟨(splitCharList (Char.ofNat 46) fn.data).getLastD []⟩ with he
    rcases h : List.lookup e LLMReviewService.supported_languages with _ | v
    · left
      show (List.lookup e LLMReviewService.supported_languages).getD "Unknown" = "Unknown"
      rw [h]
      rfl
    · right
      have hv := lookup_map_snd_mem e v LLMReviewService.supported_languages h
      show (List.lookup e LLMReviewService.supported_languages).getD "Unknown" ∈ _
      rw [h]
      simp only [Option.getD_some]
      simpa [LLMReviewService.supported_languages] using hv
  · intro h
    unfold LLMReviewService.detect_language
    rw [splitCharList_of_not_mem (Char.ofNat 46) fn.data h]
    rfl
  · intro pre suf hsuf hdecomp
    unfold LLMReviewService.detect_language
    rw [hdecomp, splitCharList_getLastD_append_sep, splitCharList_of_not_mem (Char.ofNat 46) suf hsuf]
    rfl

/-- Closed instance of the amended C4 theorem: the dotless filename
`"noext"` maps to `"Unknown"`, and `"main.PY"` decomposes at its final dot
and maps to `"Python"`. -/
theorem detect_language_amended_c4_witness :
    (Char.ofNat 46 ∉ "noext".data ∧
      LLMReviewService.detect_language "noext" =
        (List.lookup ("." ++ pyLower "noext") LLMReviewService.supported_languages).getD "Unknown") ∧
    (Char.ofNat 46 ∉ ['P', 'Y'] ∧
      "main.PY".data = ['m', 'a', 'i', 'n'] ++ Char.ofNat 46 :: ['P', 'Y'] ∧
      LLMReviewService.detect_language "main.PY" =
        (List.lookup ("." ++ pyLower ⟨['P', 'Y']⟩) LLMReviewService.supported_languages).getD "Unknown") :=
  ⟨⟨by decide, (detect_language_amended_c4 "noext").2.1 (by decide)⟩,
   ⟨by decide, by decide,
    (detect_language_amended_c4 "main.PY").2.2 ['m', 'a', 'i', 'n'] ['P', 'Y'] (by decide) (by decide)⟩⟩

/-! ### Claim C5: severity counts form a partition -/

theorem severity_count_sum (issues : List CodeIssue) :
    (issues.filter (fun i => i.severity == ReviewSeverity.critical)).length +
    (issues.filter (fun i => i.severity == ReviewSeverity.high)).length +
    (issues.filter (fun i => i.severity == ReviewSeverity.medium)).length +
    (issues.filter (fun i => i.severity == ReviewSeverity.low)).length = issues.length := by
  induction issues with
  | nil => rfl
  | cons x xs ih =>
    cases hx : x.severity <;> simp +decide [List.filter_cons, hx] <;> omega

theorem group_foldl (issues : List CodeIssue) :
    ∀ g : ReportFormatter.Grouped, issues.foldl ReportFormatter.group_step g =
      ⟨g.critical ++ (issues.filter (fun i => i.severity == ReviewSeverity.critical)).map ReportFormatter.issue_dict,
       g.high ++ (issues.filter (fun i => i.severity == ReviewSeverity.high)).map ReportFormatter.issue_dict,
       g.medium ++ (issues.filter (fun i => i.severity == ReviewSeverity.medium)).map ReportFormatter.issue_dict,
       g.low ++ (issues.filter (fun i => i.severity == ReviewSeverity.low)).map ReportFormatter.issue_dict⟩ := by
  induction issues with
  | nil => intro g; simp
  | cons x xs ih =>
    intro g
    rw [List.foldl_cons, ih]
    cases hx : x.severity <;>
      simp +decide [ReportFormatter.group_step, hx, List.filter_cons]

open ReportFormatter in
/-- C5: in the formatted report the four flat per-severity counts sum to
`total_issues`, `total_issues` is the length of the review's issue list,
each severity bucket of `issues_by_severity` is exactly the subsequence of
issues of that severity in original order (reduced to their
`{line_number, type, description, suggestion}` records), and each flat
count agrees with its bucket's length. -/
theorem format_review_counts_c5 (review : CodeReview) (filename : String) :
    (format_review review filename).critical_issues +
      (format_review review filename).high_issues +
      (format_review review filename).medium_issues +
      (format_review review filename).low_issues =
      (format_review review filename).total_issues ∧
    (format_review review filename).total_issues = review.issues.length ∧
    (format_review review filename).issues_by_severity.critical =
      (review.issues.filter (fun i => i.severity == ReviewSeverity.critical)).map issue_dict ∧
    (format_review review filename).issues_by_severity.high =
      (review.issues.filter (fun i => i.severity == ReviewSeverity.high)).map issue_dict ∧
    (format_review review filename).issues_by_severity.medium =
      (review.issues.filter (fun i => i.severity == ReviewSeverity.medium)).map issue_dict ∧
    (format_review review filename).issues_by_severity.low =
      (review.issues.filter (fun i => i.severity == ReviewSeverity.low)).map issue_dict ∧
    (format_review review filename).issues_by_severity.critical.length =
      (format_review review filename).critical_issues ∧
    (format_review review filename).issues_by_severity.high.length =
      (format_review review filename).high_issues ∧
    (format_review review filename).issues_by_severity.medium.length =
      (format_review review filename).medium_issues ∧
    (format_review review filename).issues_by_severity.low.length =
      (format_review review filename).low_issues := by
  have hg : (format_review review filename).issues_by_severity =
      ⟨(review.issues.filter (fun i => i.severity == ReviewSeverity.critical)).map issue_dict,
       (review.issues.filter (fun i => i.severity == ReviewSeverity.high)).map issue_dict,
       (review.issues.filter (fun i => i.severity == ReviewSeverity.medium)).map issue_dict,
       (review.issues.filter (fun i => i.severity == ReviewSeverity.low)).map issue_dict⟩ := by
    show group_issues_by_severity review.issues = _
    rw [group_issues_by_severity, group_foldl]
    simp
  refine ⟨severity_count_sum review.issues, rfl, ?_, ?_, ?_, ?_, ?_, ?_, ?_, ?_⟩ <;>
    simp [hg, List.length_map]
  all_goals rfl

/-! ### Claim C6: the missing-docstring checks -/

theorem mem_detect_go (ctx : List String) {x : CodeIssue} :
    ∀ (rest : List String) (i k : ℕ), k < rest.length →
      x ∈ LLMReviewService.line_checks (i + k) (rest.getD k "") ctx →
      x ∈ LLMReviewService.detect_go ctx i rest := by
  intro rest
  induction rest with
  | nil =>
    intro i k hk
    simp at hk
  | cons l t ih =>
    intro i k hk hx
    cases k with
    | zero =>
      rw [LLMReviewService.detect_go]
      refine List.mem_append.mpr (Or.inl ?_)
      simpa using hx
    | succ k2 =>
      have hk2 : k2 < t.length := by simpa using hk
      have hx2 : x ∈ LLMReviewService.line_checks ((i + 1) + k2) (t.getD k2 "") ctx := by
        have harith : i + (k2 + 1) = (i + 1) + k2 := by omega
        rw [harith] at hx
        simpa using hx
      rw [LLMReviewService.detect_go]
      exact List.mem_append.mpr (Or.inr (ih (i + 1) k2 hk2 hx2))

theorem slice_take_decomp (lines : List String) (j : ℕ) (h1 : 1 ≤ j) (h2 : j ≤ lines.length) :
    (lines.drop (j - 3)).take (j - (j - 3)) =
      (lines.drop (j - 3)).take ((j - 1) - (j - 3)) ++ [lines.getD (j - 1) ""] := by
  have ha : j - (j - 3) = ((j - 1) - (j - 3)) + 1 := by omega
  rw [ha, List.take_succ]
  congr 1
  rw [List.getElem?_drop]
  have hidx : (j - 3) + ((j - 1) - (j - 3)) = j - 1 := by omega
  rw [hidx]
  have hlt : j - 1 < lines.length := by omega
  rw [List.getElem?_eq_getElem hlt]
  simp [List.getD_eq_getElem?_getD, List.getElem?_eq_getElem hlt]

/-- C6 counterexample: in the two-line content
`def f(): """x"""` / `pass`, line 1 starts (stripped) with the
function-definition token, the next line starts with no docstring
delimiter, and there are no prior lines at all — yet the engine emits no
issue whatsoever: the first docstring check is disabled because the `def`
line is among the last two lines, and the second is disabled because the
`def` line itself contains a docstring delimiter (the window
`lines[max(0, i-3):i]` includes the current line). -/
theorem mock_docstring_issue_c6_counterexample :
    pyStartsWith (pyStrip ((pySplitLines "def f(): \"\"\"x\"\"\"\npass").getD 0 "")) "def " = true ∧
    pyStartsWith (pyStrip ((pySplitLines "def f(): \"\"\"x\"\"\"\npass").getD 1 ""))
      LLMReviewService.tripleQuote = false ∧
    pyStartsWith (pyStrip ((pySplitLines "def f(): \"\"\"x\"\"\"\npass").getD 1 ""))
      LLMReviewService.tripleApostrophe = false ∧
    ((pySplitLines "def f(): \"\"\"x\"\"\"\npass").drop (1 - 3)).take ((1 - 1) - (1 - 3)) = [] ∧
    (pySplitLines "def f(): \"\"\"x\"\"\"\npass").length = 2 ∧
    LLMReviewService.detect_all "def f(): \"\"\"x\"\"\"\npass" = [] := by
  refine ⟨by decide, by decide, by decide, by decide, by decide, by decide⟩

/-- C6 amended: for every content and 1-based line `j` whose stripped text
starts with `"def "`, if the stripped next line starts with no docstring
delimiter, no delimiter occurs within the prior 2 lines, and additionally
`j` is not among the last two lines or the line itself contains no
delimiter, then the engine's detection sequence contains a
documentation/medium "lacks documentation" issue for line `j` (the extra
disjunct is forced by the counterexample: check one is guarded by
`i < len(lines) - 1` and check two scans a window that includes the
current line). -/
theorem mock_docstring_issue_amended_c6 (content : String) (j : ℕ)
    (hj1 : 1 ≤ j) (hj2 : j ≤ (pySplitLines content).length)
    (hdef : pyStartsWith (pyStrip ((pySplitLines content).getD (j - 1) "")) "def " = true)
    (hnq : pyStartsWith (pyStrip ((pySplitLines content).getD j ""))
      LLMReviewService.tripleQuote = false)
    (hna : pyStartsWith (pyStrip ((pySplitLines content).getD j ""))
      LLMReviewService.tripleApostrophe = false)
    (hprior : ∀ p ∈ ((pySplitLines content).drop (j - 3)).take ((j - 1) - (j - 3)),
      pyContains p LLMReviewService.tripleQuote = false ∧
      pyContains p LLMReviewService.tripleApostrophe = false)
    (hextra : j < (pySplitLines content).length - 1 ∨
      (pyContains ((pySplitLines content).getD (j - 1) "") LLMReviewService.tripleQuote = false ∧
       pyContains ((pySplitLines content).getD (j - 1) "") LLMReviewService.tripleApostrophe = false)) :
    ∃ x ∈ LLMReviewService.detect_all content,
      x.line_number = some (j : ℤ) ∧ x.issue_type = "documentation" ∧
      x.severity = ReviewSeverity.medium := by
  have hs : ¬ pyStrip ((pySplitLines content).getD (j - 1) "") = "" := by
    intro heq
    rw [heq] at hdef
    exact absurd hdef (by decide)
  have hmem : ∀ x : CodeIssue,
      x ∈ LLMReviewService.line_checks j ((pySplitLines content).getD (j - 1) "")
        (pySplitLines content) →
      x ∈ LLMReviewService.detect_all content := by
    intro x hx
    have harith : 1 + (j - 1) = j := by omega
    have hk : j - 1 < (pySplitLines content).length := by omega
    exact mem_detect_go (pySplitLines content) (pySplitLines content) 1 (j - 1) hk
      (by rw [harith]; exact hx)
  rcases hextra with hlt | hclean
  · -- the first docstring check fires
    refine ⟨⟨some (j : ℤ), "documentation", .medium,
      "Function on line " ++ toString j ++ " lacks documentation",
      some "Add a docstring to describe the function's purpose and parameters"⟩,
      hmem _ ?_, rfl, rfl, rfl⟩
    simp only [LLMReviewService.line_checks]
    rw [if_neg hs]
    refine List.mem_append.mpr (Or.inl (List.mem_append.mpr (Or.inl
      (List.mem_append.mpr (Or.inr ?_)))))
    rw [if_pos ⟨hdef, hlt⟩]
    have hjlen : j < (pySplitLines content).length := by omega
    rw [if_pos hjlen]
    rw [if_pos (by rw [hnq, hna]; rfl)]
    simp
  · -- the second docstring check fires
    refine ⟨⟨some (j : ℤ), "documentation", .medium,
      "Function at line " ++ toString j ++ " lacks documentation",
      some "Add a docstring to describe the function's purpose"⟩,
      hmem _ ?_, rfl, rfl, rfl⟩
    simp only [LLMReviewService.line_checks]
    rw [if_neg hs]
    refine List.mem_append.mpr (Or.inl (List.mem_append.mpr (Or.inr ?_)))
    have hany : (((pySplitLines content).drop (j - 3)).take (j - (j - 3))).any
        (fun prev_line => pyContains prev_line LLMReviewService.tripleQuote ||
          pyContains prev_line LLMReviewService.tripleApostrophe) = false := by
      rw [slice_take_decomp (pySplitLines content) j hj1 hj2]
      rw [List.any_append]
      have h1 : (((pySplitLines content).drop (j - 3)).take ((j - 1) - (j - 3))).any
          (fun prev_line => pyContains prev_line LLMReviewService.tripleQuote ||
            pyContains prev_line LLMReviewService.tripleApostrophe) = false := by
        rw [List.any_eq_false]
        intro p hp
        have := hprior p hp
        simp [this.1, this.2]
      have h2 : ([(pySplitLines content).getD (j - 1) ""]).any
          (fun prev_line => pyContains prev_line LLMReviewService.tripleQuote ||
            pyContains prev_line LLMReviewService.tripleApostrophe) = false := by
        simp only [List.any_cons, List.any_nil]
        rw [hclean.1, hclean.2]
        rfl
      rw [h1, h2]
      rfl
    rw [if_pos (by rw [hdef, hany]; rfl)]
    simp

/-- Closed instance of the amended C6 theorem: in the content
`x` / `def f():`, line 2 is a `def` line with no next line, no delimiters
anywhere, and the engine's detection sequence contains the
documentation/medium issue for line 2. -/
theorem mock_docstring_issue_amended_c6_witness :
    ∃ x ∈ LLMReviewService.detect_all "x\ndef f():",
      x.line_number = some (2 : ℤ) ∧ x.issue_type = "documentation" ∧
      x.severity = ReviewSeverity.medium :=
  mock_docstring_issue_amended_c6 "x\ndef f():" 2 (by decide) (by decide) (by decide)
    (by decide) (by decide) (by decide)
    (Or.inr ⟨by decide, by decide⟩)

/-! ### Claim C7: quality metrics are monotone and floored at 1 -/

theorem pyRound1_eq_self (q : ℚ) (z : ℤ) (h : q * 10 = (z : ℚ)) : pyRound1 q = q := by
  rw [pyRound1, h, pyRound_intCast]
  rw [eq_comm, eq_div_iff (by norm_num : (10 : ℚ) ≠ 0)]
  linarith

theorem complexity_score_eq (i s : ℕ) :
    ReportFormatter.complexity_score i s =
      min 10 (max 1 (10 - (i : ℚ) * (1/2) - (s : ℚ) * (1/5))) := by
  apply pyRound1_eq_self _ (min 100 (max 10 (100 - 5 * (i : ℤ) - 2 * (s : ℤ))))
  rw [min_mul_of_nonneg _ _ (by norm_num : (0 : ℚ) ≤ 10)]
  rw [max_mul_of_nonneg _ _ (by norm_num : (0 : ℚ) ≤ 10)]
  push_cast
  norm_num
  ring_nf

theorem maintainability_score_eq (i s : ℕ) :
    ReportFormatter.maintainability_score i s =
      min 10 (max 1 (10 - (i : ℚ) * (3/10) - (s : ℚ) * (1/10))) := by
  apply pyRound1_eq_self _ (min 100 (max 10 (100 - 3 * (i : ℤ) - (s : ℤ))))
  rw [min_mul_of_nonneg _ _ (by norm_num : (0 : ℚ) ≤ 10)]
  rw [max_mul_of_nonneg _ _ (by norm_num : (0 : ℚ) ≤ 10)]
  push_cast
  norm_num
  ring_nf

/-- C7: the formatter's complexity and maintainability scores are the
quality metrics of `format_review`, are monotonically non-increasing in the
issue count (suggestion count fixed) and in the suggestion count (issue
count fixed), and never fall below 1. -/
theorem quality_metrics_monotone_c7 (i i2 s s2 : ℕ) (hi : i ≤ i2) (hs : s ≤ s2) :
    ReportFormatter.complexity_score i2 s ≤ ReportFormatter.complexity_score i s ∧
    ReportFormatter.complexity_score i s2 ≤ ReportFormatter.complexity_score i s ∧
    ReportFormatter.maintainability_score i2 s ≤ ReportFormatter.maintainability_score i s ∧
    ReportFormatter.maintainability_score i s2 ≤ ReportFormatter.maintainability_score i s ∧
    1 ≤ ReportFormatter.complexity_score i s ∧
    1 ≤ ReportFormatter.maintainability_score i s ∧
    (∀ (review : CodeReview) (filename : String),
      (ReportFormatter.format_review review filename).quality_metrics.complexity_score =
        ReportFormatter.complexity_score review.issues.length review.suggestions.length ∧
      (ReportFormatter.format_review review filename).quality_metrics.maintainability_score =
        ReportFormatter.maintainability_score review.issues.length review.suggestions.length) := by
  have hiq : (i : ℚ) ≤ (i2 : ℚ) := by exact_mod_cast hi
  have hsq : (s : ℚ) ≤ (s2 : ℚ) := by exact_mod_cast hs
  refine ⟨?_, ?_, ?_, ?_, ?_, ?_, fun review filename => ⟨rfl, rfl⟩⟩ <;>
    simp only [complexity_score_eq, maintainability_score_eq]
  · exact min_le_min (le_refl _) (max_le_max (le_refl _) (by linarith))
  · exact min_le_min (le_refl _) (max_le_max (le_refl _) (by linarith))
  · exact min_le_min (le_refl _) (max_le_max (le_refl _) (by linarith))
  · exact min_le_min (le_refl _) (max_le_max (le_refl _) (by linarith))
  · exact le_min (by norm_num) (le_max_left _ _)
  · exact le_min (by norm_num) (le_max_left _ _)

/-- Closed instance of the C7 theorem at issue counts 1 ≤ 2 and suggestion
counts 3 ≤ 4. -/
theorem quality_metrics_monotone_c7_witness :
    (1 ≤ 2 ∧ 3 ≤ 4) ∧
    (ReportFormatter.complexity_score 2 3 ≤ ReportFormatter.complexity_score 1 3 ∧
     ReportFormatter.complexity_score 1 4 ≤ ReportFormatter.complexity_score 1 3 ∧
     ReportFormatter.maintainability_score 2 3 ≤ ReportFormatter.maintainability_score 1 3 ∧
     ReportFormatter.maintainability_score 1 4 ≤ ReportFormatter.maintainability_score 1 3 ∧
     1 ≤ ReportFormatter.complexity_score 1 3 ∧
     1 ≤ ReportFormatter.maintainability_score 1 3 ∧
     (∀ (review : CodeReview) (filename : String),
       (ReportFormatter.format_review review filename).quality_metrics.complexity_score =
         ReportFormatter.complexity_score review.issues.length review.suggestions.length ∧
       (ReportFormatter.format_review review filename).quality_metrics.maintainability_score =
         ReportFormatter.maintainability_score review.issues.length review.suggestions.length)) :=
  ⟨⟨by decide, by decide⟩, quality_metrics_monotone_c7 1 2 3 4 (by decide) (by decide)⟩

/-! ### Claim C8: the empty review -/

/-- C8: a review with no issues and no suggestions formats to overall
score 10, complexity 10, maintainability 10 and issues-per-suggestion 0,
the division being guarded by `max(1, suggestion count) = 1`. -/
theorem format_review_empty_c8 (review : CodeReview) (filename : String)
    (hiss : review.issues = []) (hsug : review.suggestions = []) :
    (ReportFormatter.format_review review filename).overall_score = 10 ∧
    (ReportFormatter.format_review review filename).quality_metrics.complexity_score = 10 ∧
    (ReportFormatter.format_review review filename).quality_metrics.maintainability_score = 10 ∧
    (ReportFormatter.format_review review filename).quality_metrics.issues_per_suggestion = 0 ∧
    max 1 review.suggestions.length = 1 := by
  refine ⟨?_, ?_, ?_, ?_, ?_⟩
  · show ReportFormatter.calculate_overall_score review = 10
    simp only [ReportFormatter.calculate_overall_score, hiss, hsug, List.foldl_nil,
      List.length_nil]
    norm_num
    rw [show (10 : ℚ) = ((10 : ℤ) : ℚ) by norm_num, pyRound_intCast]
    decide
  · show ReportFormatter.complexity_score review.issues.length review.suggestions.length = 10
    rw [hiss, hsug]
    simp only [List.length_nil]
    rw [complexity_score_eq]
    norm_num
  · show ReportFormatter.maintainability_score review.issues.length review.suggestions.length = 10
    rw [hiss, hsug]
    simp only [List.length_nil]
    rw [maintainability_score_eq]
    norm_num
  · show pyRound2 ((review.issues.length : ℚ) / (max 1 review.suggestions.length : ℕ)) = 0
    rw [hiss, hsug]
    simp only [List.length_nil]
    norm_num [pyRound2]
    rw [show (0 : ℚ) = ((0 : ℤ) : ℚ) from by norm_num]
    exact pyRound_intCast 0
  · rw [hsug]
    rfl

/-- Closed instance of the C8 theorem at a concrete empty review. -/
theorem format_review_empty_c8_witness :
    (⟨"r", "m", "p", [], [], 5, "s"⟩ : CodeReview).issues = [] ∧
    (⟨"r", "m", "p", [], [], 5, "s"⟩ : CodeReview).suggestions = [] ∧
    ((ReportFormatter.format_review ⟨"r", "m", "p", [], [], 5, "s"⟩ "sample.py").overall_score = 10 ∧
     (ReportFormatter.format_review ⟨"r", "m", "p", [], [], 5, "s"⟩ "sample.py").quality_metrics.complexity_score = 10 ∧
     (ReportFormatter.format_review ⟨"r", "m", "p", [], [], 5, "s"⟩ "sample.py").quality_metrics.maintainability_score = 10 ∧
     (ReportFormatter.format_review ⟨"r", "m", "p", [], [], 5, "s"⟩ "sample.py").quality_metrics.issues_per_suggestion = 0 ∧
     max 1 (⟨"r", "m", "p", [], [], 5, "s"⟩ : CodeReview).suggestions.length = 1) :=
  ⟨rfl, rfl, format_review_empty_c8 ⟨"r", "m", "p", [], [], 5, "s"⟩ "sample.py" rfl rfl⟩

/-! ### Claim C9: invalid severities are dropped, valid ones kept -/

/-- The spec's validity condition: the severity string, lower-cased, is one
of `low`, `medium`, `high`, `critical`. -/
def valid_severity (s : String) : Bool :=
  pyLower s == "low" || pyLower s == "medium" || pyLower s == "high" || pyLower s == "critical"

/-- C9: parsing an external `line_wise_issues` list never raises: it is
exactly the sublist of entries with a valid (lower-cased) severity, in
order, each turned into a `CodeIssue`; entries with any other severity
string are silently dropped. -/
theorem parse_drops_invalid_c9 (entries : List LLMReviewService.RawIssue) :
    LLMReviewService.parse_line_wise_issues entries =
      (entries.filter (fun e => valid_severity e.severity)).map
        (fun e => LLMReviewService.issue_of_raw e
          ((LLMReviewService.parse_severity (pyLower e.severity)).getD ReviewSeverity.medium)) := by
  induction entries with
  | nil => rfl
  | cons e rest ih =>
    by_cases h1 : pyLower e.severity = "low"
    · simp +decide [LLMReviewService.parse_line_wise_issues, LLMReviewService.parse_severity,
        valid_severity, h1, List.filter_cons, ih]
    · by_cases h2 : pyLower e.severity = "medium"
      · simp +decide [LLMReviewService.parse_line_wise_issues, LLMReviewService.parse_severity,
          valid_severity, h2, List.filter_cons, ih]
      · by_cases h3 : pyLower e.severity = "high"
        · simp +decide [LLMReviewService.parse_line_wise_issues, LLMReviewService.parse_severity,
            valid_severity, h3, List.filter_cons, ih]
        · by_cases h4 : pyLower e.severity = "critical"
          · simp +decide [LLMReviewService.parse_line_wise_issues, LLMReviewService.parse_severity,
              valid_severity, h4, List.filter_cons, ih]
          · simp [LLMReviewService.parse_line_wise_issues, LLMReviewService.parse_severity,
              valid_severity, h1, h2, h3, h4, List.filter_cons, ih]

/-! ### Claim C10: suggestion-count bounds and the summary clause -/

theorem pyJoin_append_singleton (sep c : String) :
    ∀ ps : List String, ps ≠ [] → pyJoin sep (ps ++ [c]) = pyJoin sep ps ++ sep ++ c := by
  intro ps
  induction ps with
  | nil => intro h; exact absurd rfl h
  | cons x t ih =>
    intro _
    cases t with
    | nil => rfl
    | cons y ys =>
      have hne : (y :: ys) ≠ [] := by simp
      calc pyJoin sep ((x :: y :: ys) ++ [c])
          = x ++ sep ++ pyJoin sep ((y :: ys) ++ [c]) := rfl
        _ = x ++ sep ++ (pyJoin sep (y :: ys) ++ sep ++ c) := by rw [ih hne]
        _ = pyJoin sep (x :: y :: ys) ++ sep ++ c := by
            simp only [pyJoin, String.append_assoc]

theorem pyJoin_exists_pre (sep c : String) (ps : List String) (h : ps ≠ []) :
    ∃ pre, pyJoin sep (ps ++ [c]) = pre ++ c :=
  ⟨pyJoin sep ps ++ sep, by rw [pyJoin_append_singleton sep c ps h, String.append_assoc]⟩

theorem generate_summary_clause (review : CodeReview) (score : ℤ)
    (h : review.suggestions ≠ []) :
    ∃ pre, ReportFormatter.generate_summary review score =
      pre ++ ("Provided " ++ toString review.suggestions.length ++ " improvement suggestions.") := by
  have hne : ¬ (review.suggestions.isEmpty = true) := by
    simp [List.isEmpty_iff]
    exact h
  simp only [ReportFormatter.generate_summary]
  rw [if_neg hne]
  exact pyJoin_exists_pre " " _ _ (by simp)

/-- C10: for every content, line count and language, the heuristic
suggestion list has between 2 and 6 entries (the two unconditional
suggestions are appended before the cap of 6), so a heuristic review's
suggestion list is never empty and the formatter's summary always ends
with the "Provided N improvement suggestions." clause. -/
theorem mock_suggestions_c10 (content : String) (line_count : ℕ) (language filename : String) :
    2 ≤ (LLMReviewService.get_suggestions content line_count language).length ∧
    (LLMReviewService.get_suggestions content line_count language).length ≤ 6 ∧
    (LLMReviewService.analyze_heuristic content filename).suggestions ≠ [] ∧
    ∃ pre,
      (ReportFormatter.format_review (LLMReviewService.analyze_heuristic content filename)
        filename).summary =
      pre ++ ("Provided " ++
        toString (LLMReviewService.analyze_heuristic content filename).suggestions.length ++
        " improvement suggestions.") := by
  have hb : ∀ (c : String) (lc : ℕ) (lang : String),
      2 ≤ (LLMReviewService.get_suggestions c lc lang).length ∧
      (LLMReviewService.get_suggestions c lc lang).length ≤ 6 := by
    intro c lc lang
    simp only [LLMReviewService.get_suggestions]
    constructor <;>
      (rw [List.length_take]
       simp only [List.length_append, List.length_cons, List.length_nil]
       omega)
  have hne : (LLMReviewService.analyze_heuristic content filename).suggestions ≠ [] := by
    show LLMReviewService.get_suggestions content (pySplitLines content).length
      (LLMReviewService.detect_language filename) ≠ []
    apply List.length_pos.mp
    have := (hb content (pySplitLines content).length (LLMReviewService.detect_language filename)).1
    omega
  exact ⟨(hb content line_count language).1, (hb content line_count language).2, hne,
    generate_summary_clause _ _ hne⟩

end CodeReviewAssistant
